/-
Verification of the koordlet resmanager core (eviction executor, container
killer, BE memory evictor, reconcile host startup) against its specification.

The Go sources `pkg/koordlet/resmanager/resmanager.go` and
`pkg/koordlet/resmanager/memory_evict.go` are shallowly embedded below:
pure control flow becomes Lean functions, the external cluster API and the
container runtime become explicit outcome parameters, Go `int64` arithmetic
becomes `Int` with truncating division (`Int.tdiv`), and the side effects of
a call (audit records, API calls, events, runtime stop calls) are returned
as explicit values.
-/
import Mathlib

set_option maxHeartbeats 1000000

/-! ## Data model -/

/-- A container status entry of a pod's status block: the container name, its
`<runtime>://<id>` container-ID string, and whether its state has a Running
section (`State.Running != nil` in the source). -/
structure ContainerStatus where
  name : String
  containerID : String
  stateRunning : Bool
deriving DecidableEq, Repr

/-- A container spec entry (`pod.Spec.Containers`); only the name matters to
the embedded code. -/
structure ContainerSpec where
  name : String
deriving DecidableEq, Repr

/-- A pod descriptor: UID, namespace, name, QoS class label, optional
scheduling priority (`pod.Spec.Priority`, a nullable integer), container
specs and container statuses. -/
structure Pod where
  uid : String
  ns : String
  name : String
  qosClass : String
  priority : Option Int
  specContainers : List ContainerSpec
  statusContainerStatuses : List ContainerStatus
deriving DecidableEq, Repr

/-- A node descriptor; `capacityMemory` is `node.Status.Capacity.Memory().Value()`
in bytes. -/
structure Node where
  name : String
  capacityMemory : Int
deriving DecidableEq, Repr

/-- `ResourceUsedThresholdWithBE` of the NodeSLO spec: the `Enable` flag and
the memory-evict thresholds, all nullable in the source. -/
structure ResourceThresholdStrategy where
  enable : Option Bool
  memoryEvictThresholdPercent : Option Int
  memoryEvictLowerPercent : Option Int
deriving DecidableEq, Repr

/-- The NodeSLO spec; the embedded code reads only
`ResourceUsedThresholdWithBE`, so the Go comparison
`nodeSLO.Spec == (slov1alpha1.NodeSLOSpec{})` is the test against the
all-empty value. -/
structure NodeSLOSpec where
  resourceUsedThresholdWithBE : Option ResourceThresholdStrategy
deriving DecidableEq, Repr

/-- The feature gates that appear in `isFeatureDisabled`'s switch. -/
inductive Feature where
  | BECPUSuppress
  | BEMemoryEvict
  | BECPUEvict
  | CgroupReconcile
deriving DecidableEq, Repr

/-- `isFeatureDisabled` from `resmanager.go`: returns `(disabled, hasError)`.
A nil NodeSLO or an empty spec yields `(true, error)`; for the three BE
features a missing `ResourceUsedThresholdWithBE` or missing `Enable` yields
`(true, error)`, otherwise `(!Enable, no error)`; any other feature hits the
default error branch. `nodeSLO = none` models the nil pointer. -/
def isFeatureDisabled (nodeSLO : Option NodeSLOSpec) (feature : Feature) : Bool × Bool :=
  match nodeSLO with
  | none => (true, true)
  | some spec =>
    if spec = { resourceUsedThresholdWithBE := none } then (true, true)
    else
      match feature with
      | .BECPUSuppress | .BEMemoryEvict | .BECPUEvict =>
        match spec.resourceUsedThresholdWithBE with
        | none => (true, true)
        | some strategy =>
          match strategy.enable with
          | none => (true, true)
          | some e => (!e, false)
      | _ => (true, true)

/-! ## Eviction executor (`evictPod`, `evictPodIfNotEvicted`) -/

/-- Event reason emitted on a successful eviction API call. -/
def evictPodSuccess : String := "evictPodSuccess"

/-- Event reason emitted on a failed eviction API call. -/
def evictPodFail : String := "evictPodFail"

/-- The observable side effects of one eviction attempt: audit records
written (keyed namespace/name/reason/message), number of cluster API
eviction calls issued, how many of them succeeded, and the event reasons
emitted. -/
structure EvictEffects where
  audits : List (String × String × String × String)
  apiCalls : Nat
  apiSuccesses : Nat
  events : List String
deriving DecidableEq, Repr

/-- The empty effect record: nothing audited, no API call, no event. -/
def noEffects : EvictEffects := { audits := [], apiCalls := 0, apiSuccesses := 0, events := [] }

/-- The evicted set (`podsEvicted`, an expiring cache keyed by pod UID).
Modelled from the spec: the cache implementation is not part of the sources;
section 4.1 describes `get` as membership and `set_default` as insertion, and
entries live until swept by TTL. Within one TTL window the set behaves as the
plain set of inserted UIDs modelled here. -/
structure EvictState where
  podsEvicted : List String
deriving DecidableEq, Repr

/-- `evictPod` from `resmanager.go`: writes the audit record, issues exactly
one cluster API eviction call whose outcome is the oracle `apiOk`, emits the
`evictPodSuccess` or `evictPodFail` event accordingly, and returns whether
the call succeeded. -/
def evictPod (p : Pod) (reason message : String) (apiOk : Bool) : Bool × EvictEffects :=
  (apiOk,
    { audits := [(p.ns, p.name, reason, message)]
      apiCalls := 1
      apiSuccesses := if apiOk then 1 else 0
      events := [if apiOk then evictPodSuccess else evictPodFail] })

/-- `evictPodIfNotEvicted` from `resmanager.go`: if the pod's UID is in the
evicted set, return with no effects; otherwise run `evictPod` and insert the
UID into the set exactly when the API call succeeded. -/
def evictPodIfNotEvicted (s : EvictState) (p : Pod) (reason message : String)
    (apiOk : Bool) : EvictState × EvictEffects :=
  if s.podsEvicted.contains p.uid then (s, noEffects)
  else
    let r := evictPod p reason message apiOk
    (if r.1 then { podsEvicted := p.uid :: s.podsEvicted } else s, r.2)

/-- A sequence of back-to-back `evictPodIfNotEvicted` calls for the same pod,
one oracle outcome per potential API call; returns the final evicted set and
the total number of successful API eviction calls. -/
def evictSeq (s : EvictState) (p : Pod) (reason message : String) : List Bool → EvictState × Nat
  | [] => (s, 0)
  | o :: os =>
    let r := evictPodIfNotEvicted s p reason message o
    let rest := evictSeq r.1 p reason message os
    (rest.1, r.2.apiSuccesses + rest.2)

/-- Total number of cluster API eviction calls issued by two back-to-back
`evictPodIfNotEvicted` calls with the given API outcomes. -/
def evictTwiceApiCalls (s : EvictState) (p : Pod) (reason message : String)
    (o1 o2 : Bool) : Nat :=
  let r1 := evictPodIfNotEvicted s p reason message o1
  let r2 := evictPodIfNotEvicted r1.1 p reason message o2
  r1.2.apiCalls + r2.2.apiCalls

/-- A concrete pod used to evaluate the executor on closed inputs. -/
def samplePod : Pod :=
  { uid := "uid-1", ns := "default", name := "pod-a", qosClass := "BE"
    priority := some 0, specContainers := [], statusContainerStatuses := [] }

/-! ## BE memory evictor (`memory_evict.go`) -/

/-- `memoryReleaseBufferPercent` from `memory_evict.go`. -/
def memoryReleaseBufferPercent : Int := 2

/-- `podInfo` from `memory_evict.go`: a pod together with its memory usage
sample. The Go field is a `float64`; metric samples are modelled as integers
(`memUsed = 0` means "no sample", exactly as the source treats it). -/
structure PodInfo where
  pod : Pod
  memUsed : Int
deriving DecidableEq, Repr

/-- Go `int64` division: truncation toward zero. -/
def goDiv (a b : Int) : Int := a.tdiv b

/-- `GetPodQoSClassRaw` restricted to what the evictor uses.
Modelled from the spec: the QoS accessor lives in `apis/extension`, outside
the sources; sections 3 and 4.6 say the pod carries a QoS class label and
that label "BE" marks it evictable. -/
def getPodQoSClassRaw (p : Pod) : String := p.qosClass

/-- The QoS class that marks a pod as best-effort. -/
def qosBE : String := "BE"

/-- Go map indexing `podMetricMap[string(pod.UID)]`: the stored sample, or
zero when the key is absent. -/
def metricLookup (m : List (String × Int)) (uid : String) : Int :=
  match m.find? (fun kv => kv.1 == uid) with
  | some kv => kv.2
  | none => 0

/-- The second and third comparison keys of `getSortedBEPodInfos`'s closure
(lines 181-188): descending `memUsed` when both samples are non-zero,
descending pod name when both are zero, and otherwise "the pod whose sample
is zero ranks after the one with a sample". -/
def memEvictTieBreak (a b : PodInfo) : Bool :=
  if a.memUsed != 0 && b.memUsed != 0 then decide (a.memUsed > b.memUsed)
  else if a.memUsed == 0 && b.memUsed == 0 then decide (a.pod.name > b.pod.name)
  else b.memUsed == 0

/-- The full `sort.Slice` comparison closure of `getSortedBEPodInfos`
(lines 175-189): when both priorities are present and differ, the lower
priority comes first; otherwise fall through to `memEvictTieBreak`. -/
def memEvictLess (a b : PodInfo) : Bool :=
  match a.pod.priority, b.pod.priority with
  | some pa, some pb => if pa != pb then decide (pa < pb) else memEvictTieBreak a b
  | _, _ => memEvictTieBreak a b

/-- Insertion of one element into a list already arranged by `lt`. -/
def sortInsert (lt : PodInfo → PodInfo → Bool) (x : PodInfo) : List PodInfo → List PodInfo
  | [] => [x]
  | y :: ys => if lt x y then x :: y :: ys else y :: sortInsert lt x ys

/-- Insertion sort with comparison `lt`. Go's `sort.Slice` is an unstable
sort whose result is unspecified when the comparison is not a strict weak
order (which `memEvictLess` is not); the model fixes insertion sort as one
sorting algorithm consistent with the comparison. -/
def sortSlice (lt : PodInfo → PodInfo → Bool) : List PodInfo → List PodInfo
  | [] => []
  | x :: xs => sortInsert lt x (sortSlice lt xs)

/-- `getSortedBEPodInfos` from `memory_evict.go`: keep the BE pods, pair each
with its metric sample (zero when absent), and sort with `memEvictLess`. -/
def getSortedBEPodInfos (allPods : List Pod) (podMetricMap : List (String × Int)) : List PodInfo :=
  sortSlice memEvictLess
    (allPods.filterMap fun p =>
      if getPodQoSClassRaw p == qosBE then
        some { pod := p, memUsed := metricLookup podMetricMap p.uid }
      else none)

/-- The drain loop of `killAndEvictBEPods` (lines 142-153): walk the sorted
victims, break once `released >= need`, otherwise kill the pod's containers,
append it to the killed list, and credit its `memUsed` when non-zero.
Returns the killed pods in order and the final released total. -/
def drainLoop (need : Int) : List PodInfo → Int → List Pod × Int
  | [], released => ([], released)
  | p :: ps, released =>
    if released ≥ need then ([], released)
    else
      let released2 := if p.memUsed != 0 then released + p.memUsed else released
      let rest := drainLoop need ps released2
      (p.pod :: rest.1, rest.2)

/-- The credited memory of a victim list: the sum of the non-zero samples
(a zero sample contributes nothing, as in the source). -/
def creditSum : List PodInfo → Int
  | [] => 0
  | p :: ps => (if p.memUsed != 0 then p.memUsed else 0) + creditSum ps

/-- Static configuration read by the evictor. -/
structure MemoryEvictConfig where
  memoryEvictCoolTimeSeconds : Int
deriving DecidableEq, Repr

/-- The evictor's own state: `lastEvictTime`, in seconds. -/
structure MemoryEvictorState where
  lastEvictTime : Int
deriving DecidableEq, Repr

/-- Everything one `memoryEvict` tick reads from its collaborators:
`now1` is `time.Now()` at the cooldown check, `now2` is `time.Now()` at the
final `lastEvictTime` update (`now1 ≤ now2` in reality), `nodeSLO` the
informer snapshot (`none` = nil), `node` the node descriptor (`none` = nil),
`podMetricMap` the per-pod memory samples, `allPods` the informer's pod list,
`buildQueryOk` whether `NodeMemoryUsageMetric.BuildQueryMeta(nil)` succeeds,
and `nodeMemoryUsed` the queried node memory usage (`none` = query error),
already truncated to `int64`. -/
structure TickEnv where
  now1 : Int
  now2 : Int
  nodeSLO : Option NodeSLOSpec
  node : Option Node
  podMetricMap : List (String × Int)
  allPods : List Pod
  buildQueryOk : Bool
  nodeMemoryUsed : Option Int
deriving DecidableEq, Repr

/-- The outcome of one `memoryEvict` tick: the pods whose containers were
killed (in kill order), the pods handed to the batch evictor, the released
total and the release budget of the drain loop, the new `lastEvictTime`, and
whether the eviction wave ran at all. -/
structure TickResult where
  killed : List Pod
  evictedPods : List Pod
  released : Int
  needRelease : Int
  lastEvictTime : Int
  acted : Bool
deriving DecidableEq, Repr

/-- The result of a tick that returns early: nothing killed, nothing
evicted, state unchanged. -/
def skipResult (st : MemoryEvictorState) : TickResult :=
  { killed := [], evictedPods := [], released := 0, needRelease := 0
    lastEvictTime := st.lastEvictTime, acted := false }

/-- The lower bound `L` used by the tick (lines 82-87): the configured
`MemoryEvictLowerPercent` when set, else the threshold minus
`memoryReleaseBufferPercent`. -/
def effectiveLowerPercent (strategy : ResourceThresholdStrategy) (threshold : Int) : Int :=
  match strategy.memoryEvictLowerPercent with
  | some l => l
  | none => threshold - memoryReleaseBufferPercent

/-- The release budget of a wave (line 132):
`memoryNeedRelease = memoryCapacity * (nodeMemoryUsage - lowerPercent) / 100`. -/
def memoryNeedRelease (capacity usage lower : Int) : Int :=
  goDiv (capacity * (usage - lower)) 100

/-- The eviction wave of a tick (`killAndEvictBEPods`, lines 136-159): drain
the sorted BE victims against the budget; the killed pods are then passed to
the batch evictor and `lastEvictTime` becomes the current time. -/
def waveResult (env : TickEnv) (need : Int) : TickResult :=
  { killed := (drainLoop need (getSortedBEPodInfos env.allPods env.podMetricMap) 0).1
    evictedPods := (drainLoop need (getSortedBEPodInfos env.allPods env.podMetricMap) 0).1
    released := (drainLoop need (getSortedBEPodInfos env.allPods env.podMetricMap) 0).2
    needRelease := need
    lastEvictTime := env.now2, acted := true }

/-- `memoryEvict` from `memory_evict.go` combined with `killAndEvictBEPods`:
cooldown check, feature gate, threshold sanity, node and metric guards, node
usage percent, pressure gate, release budget, drain loop, batch eviction and
`lastEvictTime` update, in source order. Every early return yields
`skipResult`. -/
def memoryEvict (cfg : MemoryEvictConfig) (st : MemoryEvictorState) (env : TickEnv) : TickResult :=
  if env.now1 < st.lastEvictTime + cfg.memoryEvictCoolTimeSeconds then skipResult st
  else if (isFeatureDisabled env.nodeSLO .BEMemoryEvict).2 then skipResult st
  else if (isFeatureDisabled env.nodeSLO .BEMemoryEvict).1 then skipResult st
  else
    match env.nodeSLO with
    | none => skipResult st
    | some spec =>
      match spec.resourceUsedThresholdWithBE with
      | none => skipResult st
      | some strategy =>
        match strategy.memoryEvictThresholdPercent with
        | none => skipResult st
        | some thresholdPercent =>
          if thresholdPercent < 0 then skipResult st
          else if effectiveLowerPercent strategy thresholdPercent ≥ thresholdPercent then
            skipResult st
          else
            match env.node with
            | none => skipResult st
            | some node =>
              if node.capacityMemory ≤ 0 then skipResult st
              else if !env.buildQueryOk then skipResult st
              else
                match env.nodeMemoryUsed with
                | none => skipResult st
                | some nodeMemoryUsed =>
                  if goDiv (nodeMemoryUsed * 100) node.capacityMemory < thresholdPercent then
                    skipResult st
                  else
                    waveResult env
                      (memoryNeedRelease node.capacityMemory
                        (goDiv (nodeMemoryUsed * 100) node.capacityMemory)
                        (effectiveLowerPercent strategy thresholdPercent))

/-- The guard conjunction under which a `memoryEvict` tick reaches the
eviction wave: cooldown passed, feature enabled, threshold present and
non-negative, lower bound strictly below it, node present with positive
memory capacity, query built, node usage sample present, and the usage
percent at or above the threshold. -/
def guardsPass (cfg : MemoryEvictConfig) (st : MemoryEvictorState) (env : TickEnv) : Prop :=
  ¬ env.now1 < st.lastEvictTime + cfg.memoryEvictCoolTimeSeconds ∧
  ∃ spec strategy thresholdPercent node nodeMemoryUsed,
    env.nodeSLO = some spec ∧
    spec.resourceUsedThresholdWithBE = some strategy ∧
    strategy.enable = some true ∧
    strategy.memoryEvictThresholdPercent = some thresholdPercent ∧
    0 ≤ thresholdPercent ∧
    effectiveLowerPercent strategy thresholdPercent < thresholdPercent ∧
    env.node = some node ∧
    0 < node.capacityMemory ∧
    env.buildQueryOk = true ∧
    env.nodeMemoryUsed = some nodeMemoryUsed ∧
    thresholdPercent ≤ goDiv (nodeMemoryUsed * 100) node.capacityMemory

/-! ## Container killer (`killContainers`) -/

/-- `ParseContainerId`. Modelled from the spec: the parser lives in
`pkg/util`, outside the sources; section 4.5 gives the container-ID string
format `<runtime>://<id>`. A string without exactly one separator parses to
empty runtime and id. -/
def parseContainerId (s : String) : String × String :=
  match s.splitOn "://" with
  | [runtimeType, id] => (runtimeType, id)
  | _ => ("", "")

/-- `util.FindContainerIdAndStatusByName`. Modelled from the spec:
the helper lives in `pkg/util`, outside the sources; section 4.5 step 1 says
it locates the matching container status by name and fails when none
matches (the nil-status case of the source collapses into the failure case).
The container ID it reports is the `<id>` part of the status's
`<runtime>://<id>` string. -/
def findContainerIdAndStatusByName (statuses : List ContainerStatus) (name : String) :
    Option (String × ContainerStatus) :=
  match statuses with
  | [] => none
  | st :: rest =>
    if st.name == name then some ((parseContainerId st.containerID).2, st)
    else findContainerIdAndStatusByName rest name

/-- The loop body of `killContainers` (lines 213-237), iterating over the
container specs: a lookup failure or a non-running status aborts the whole
pod (early return — no further stop calls); an unknown runtime or an empty
container ID skips just that container; a stop error (`stopErr`) is logged
and ignored. `known` is the set of runtime types the runtime-handler
registry resolves; the returned list holds the container IDs passed to
`StopContainer`, in call order. -/
def killContainersLoop (known : List String) (stopErr : String → Bool)
    (statuses : List ContainerStatus) : List ContainerSpec → List String
  | [] => []
  | c :: cs =>
    match findContainerIdAndStatusByName statuses c.name with
    | none => []
    | some found =>
      if !found.2.stateRunning then []
      else if found.1 != "" then
        let runtimeType := (parseContainerId found.2.containerID).1
        if known.contains runtimeType then
          let _ignored := stopErr found.1
          found.1 :: killContainersLoop known stopErr statuses cs
        else
          killContainersLoop known stopErr statuses cs
      else
        killContainersLoop known stopErr statuses cs

/-- `killContainers` from `resmanager.go`: run the loop over the pod's
container specs against its status block; the result is the list of runtime
stop calls issued. -/
def killContainers (known : List String) (stopErr : String → Bool) (pod : Pod) : List String :=
  killContainersLoop known stopErr pod.statusContainerStatuses pod.specContainers

/-! ## Reconcile host startup (`Run`) -/

/-- What `Run` observably does before blocking on the stop channel:
whether it returned an error, whether the evicted-set sweeper and the QoS
grey-control plugins were started, and which reconcilers were spawned. -/
structure RunOutcome where
  err : Option String
  sweeperStarted : Bool
  greyCtrlPluginsStarted : Bool
  reconcilersStarted : List String
deriving DecidableEq, Repr

/-- `Run` from `resmanager.go`, as a function of the configured collect
interval and of whether the states informer syncs before stop fires: an
interval below one second returns nil immediately, before starting the
sweeper, the plugins or any reconciler; a failed informer sync returns the
sync-timeout error with no reconciler spawned; otherwise all eight
reconcilers are spawned and Run blocks until stop, returning nil. -/
def Run (collectResUsedIntervalSeconds : Int) (informerSynced : Bool) : RunOutcome :=
  if collectResUsedIntervalSeconds < 1 then
    { err := none, sweeperStarted := false, greyCtrlPluginsStarted := false
      reconcilersStarted := [] }
  else if !informerSynced then
    { err := some "time out waiting for states informer caches to sync"
      sweeperStarted := true, greyCtrlPluginsStarted := true, reconcilersStarted := [] }
  else
    { err := none, sweeperStarted := true, greyCtrlPluginsStarted := true
      reconcilersStarted :=
        ["cgroupReconcile", "cpuSuppress", "cpuBurst", "systemConfig",
         "cpuEvict", "memoryEvict", "rdtResctrl", "blkioReconcile"] }

/-! ## Concrete inputs used to evaluate the model on closed instances -/

/-- A threshold strategy with the feature enabled, threshold 70 and lower
bound 60. -/
def sampleStrategy : ResourceThresholdStrategy :=
  { enable := some true, memoryEvictThresholdPercent := some 70
    memoryEvictLowerPercent := some 60 }

/-- A node with 100 bytes of memory capacity. -/
def sampleNode : Node := { name := "node-1", capacityMemory := 100 }

/-- BE pod A: priority 100, sampled memory 4. -/
def samplePodA : Pod :=
  { uid := "A", ns := "d", name := "pod-A", qosClass := "BE", priority := some 100
    specContainers := [], statusContainerStatuses := [] }

/-- BE pod B: priority 100, sampled memory 10. -/
def samplePodB : Pod :=
  { uid := "B", ns := "d", name := "pod-B", qosClass := "BE", priority := some 100
    specContainers := [], statusContainerStatuses := [] }

/-- BE pod C: priority 50, sampled memory 1. -/
def samplePodC : Pod :=
  { uid := "C", ns := "d", name := "pod-C", qosClass := "BE", priority := some 50
    specContainers := [], statusContainerStatuses := [] }

/-- A tick environment under memory pressure: usage 80 of capacity 100,
threshold 70, lower bound 60, three BE pods. -/
def sampleEnv : TickEnv :=
  { now1 := 10, now2 := 11
    nodeSLO := some { resourceUsedThresholdWithBE := some sampleStrategy }
    node := some sampleNode
    podMetricMap := [("A", 4), ("B", 10), ("C", 1)]
    allPods := [samplePodA, samplePodB, samplePodC]
    buildQueryOk := true, nodeMemoryUsed := some 80 }

/-- A config with no cooldown. -/
def sampleCfg : MemoryEvictConfig := { memoryEvictCoolTimeSeconds := 0 }

/-- An evictor state with `lastEvictTime = 0`. -/
def sampleSt : MemoryEvictorState := { lastEvictTime := 0 }

/-- `sampleStrategy` with the lower percent unset. -/
def sampleStrategyNoLower : ResourceThresholdStrategy :=
  { enable := some true, memoryEvictThresholdPercent := some 70
    memoryEvictLowerPercent := none }

/-- A misconfigured strategy: threshold 50 below its lower bound 60. -/
def sampleStrategyBad : ResourceThresholdStrategy :=
  { enable := some true, memoryEvictThresholdPercent := some 50
    memoryEvictLowerPercent := some 60 }

/-- The NodeSLO spec wrapping `sampleStrategyBad`. -/
def sampleSpecBad : NodeSLOSpec := { resourceUsedThresholdWithBE := some sampleStrategyBad }

/-- `sampleEnv` with the misconfigured NodeSLO. -/
def sampleEnvBad : TickEnv := { sampleEnv with nodeSLO := some sampleSpecBad }

/-- `sampleEnv` with a nil NodeSLO. -/
def sampleEnvNilSLO : TickEnv := { sampleEnv with nodeSLO := none }

/-- Victim-ranking cycle input A: priority 1, sample 5. -/
def cycleInfoA : PodInfo :=
  { pod := { uid := "a", ns := "d", name := "pod-cycle-a", qosClass := "BE", priority := some 1
             specContainers := [], statusContainerStatuses := [] }, memUsed := 5 }

/-- Victim-ranking cycle input B: priority 2, sample 10. -/
def cycleInfoB : PodInfo :=
  { pod := { uid := "b", ns := "d", name := "pod-cycle-b", qosClass := "BE", priority := some 2
             specContainers := [], statusContainerStatuses := [] }, memUsed := 10 }

/-- Victim-ranking cycle input C: no priority, sample 7. -/
def cycleInfoC : PodInfo :=
  { pod := { uid := "c", ns := "d", name := "pod-cycle-c", qosClass := "BE", priority := none
             specContainers := [], statusContainerStatuses := [] }, memUsed := 7 }

/-- A container status whose name matches no spec container below. -/
def strayStatus : ContainerStatus :=
  { name := "other", containerID := "docker://x", stateRunning := true }

/-- A pod with one container whose status exists but is not running. -/
def stoppedPod : Pod :=
  { uid := "w", ns := "d", name := "pod-w", qosClass := "BE", priority := none
    specContainers := [{ name := "c1" }]
    statusContainerStatuses :=
      [{ name := "c1", containerID := "docker://id1", stateRunning := false }] }

/-! ## Theorems: eviction executor -/

/-- If the pod's UID is already in the evicted set, every further call in a
back-to-back sequence leaves the set unchanged and makes no successful API
call. -/
theorem evictSeq_of_mem (p : Pod) (reason message : String) :
    ∀ (os : List Bool) (s : EvictState), p.uid ∈ s.podsEvicted →
      evictSeq s p reason message os = (s, 0) := by
  intro os
  induction os with
  | nil => intro s _; rfl
  | cons o os ih =>
    intro s h
    simp [evictSeq, evictPodIfNotEvicted, h, noEffects, ih s h]

/-- Across any sequence of back-to-back calls for one pod, at most one API
eviction call succeeds. -/
theorem evictSeq_le_one (p : Pod) (reason message : String) :
    ∀ (os : List Bool) (s : EvictState), (evictSeq s p reason message os).2 ≤ 1 := by
  intro os
  induction os with
  | nil => intro s; exact Nat.zero_le 1
  | cons o os ih =>
    intro s
    by_cases h : p.uid ∈ s.podsEvicted
    · simp [evictSeq_of_mem p reason message (o :: os) s h]
    · cases o with
      | true =>
        have hmem : p.uid ∈ ({ podsEvicted := p.uid :: s.podsEvicted } : EvictState).podsEvicted :=
          List.mem_cons_self _ _
        simp [evictSeq, evictPodIfNotEvicted, evictPod, h,
          evictSeq_of_mem p reason message os _ hmem]
      | false =>
        simpa [evictSeq, evictPodIfNotEvicted, evictPod, h] using ih s

/-- Claim C1: `evictPodIfNotEvicted` is an at-most-once barrier per TTL
window: when the pod's UID is in the evicted set the call returns with no
audit record, no cluster API call and no event; when it is not, exactly one
API call is made and the UID is inserted if and only if that call succeeds;
hence any back-to-back sequence of calls makes at most one successful API
eviction call while the entry lives. -/
theorem claim_c1_evict_at_most_once_barrier (s : EvictState) (p : Pod)
    (reason message : String) (apiOk : Bool) (os : List Bool) :
    (p.uid ∈ s.podsEvicted →
      evictPodIfNotEvicted s p reason message apiOk = (s, noEffects)) ∧
    (p.uid ∉ s.podsEvicted →
      (evictPodIfNotEvicted s p reason message apiOk).2.apiCalls = 1 ∧
      (p.uid ∈ (evictPodIfNotEvicted s p reason message apiOk).1.podsEvicted ↔ apiOk = true)) ∧
    (evictSeq s p reason message os).2 ≤ 1 := by
  refine ⟨fun h => by simp [evictPodIfNotEvicted, h], fun h => ?_, evictSeq_le_one p reason message os s⟩
  cases apiOk <;> simp [evictPodIfNotEvicted, evictPod, h]

/-- Witness for C1 at concrete inputs: a UID already present is a no-op, a
fresh UID is inserted on a successful call, and a fail-then-succeed-twice
sequence yields one successful API call. -/
theorem claim_c1_evict_at_most_once_barrier_witness :
    (evictPodIfNotEvicted { podsEvicted := ["uid-1"] } samplePod "r" "m" true =
      ({ podsEvicted := ["uid-1"] }, noEffects)) ∧
    ((evictPodIfNotEvicted { podsEvicted := [] } samplePod "r" "m" true).2.apiCalls = 1 ∧
      (samplePod.uid ∈ (evictPodIfNotEvicted { podsEvicted := [] } samplePod "r" "m" true).1.podsEvicted ↔ true = true)) ∧
    (evictSeq { podsEvicted := [] } samplePod "r" "m" [false, true, true]).2 ≤ 1 :=
  ⟨(claim_c1_evict_at_most_once_barrier { podsEvicted := ["uid-1"] } samplePod "r" "m" true []).1
      (by decide),
   (claim_c1_evict_at_most_once_barrier { podsEvicted := [] } samplePod "r" "m" true []).2.1
      (by decide),
   (claim_c1_evict_at_most_once_barrier { podsEvicted := [] } samplePod "r" "m" true
      [false, true, true]).2.2⟩

/-- Counterexample to claim C2 as stated: with an empty evicted set and a
cluster API that fails both times, two back-to-back `evictPodIfNotEvicted`
calls issue two cluster API eviction calls (the failed first call does not
insert the UID, so the second call retries). -/
theorem claim_c2_counterexample :
    ¬ (evictTwiceApiCalls { podsEvicted := [] } samplePod "r" "m" false false ≤ 1) := by
  decide

/-- Claim C2 (amended): two back-to-back calls issue at most one
*successful* API call and at most two API calls in total; when the first
call's API call succeeds the second call issues no API call at all; after a
failed first attempt on a fresh UID the second call issues a retry API
call. -/
theorem claim_c2_twice_amended (s : EvictState) (p : Pod) (reason message : String)
    (o1 o2 : Bool) :
    (evictPodIfNotEvicted s p reason message o1).2.apiSuccesses +
      (evictPodIfNotEvicted (evictPodIfNotEvicted s p reason message o1).1
        p reason message o2).2.apiSuccesses ≤ 1 ∧
    (o1 = true →
      (evictPodIfNotEvicted (evictPodIfNotEvicted s p reason message o1).1
        p reason message o2).2.apiCalls = 0) ∧
    evictTwiceApiCalls s p reason message o1 o2 ≤ 2 ∧
    (p.uid ∉ s.podsEvicted → o1 = false →
      (evictPodIfNotEvicted (evictPodIfNotEvicted s p reason message o1).1
        p reason message o2).2.apiCalls = 1) := by
  by_cases h : p.uid ∈ s.podsEvicted
  · cases o1 <;> cases o2 <;>
      simp [evictPodIfNotEvicted, evictPod, evictTwiceApiCalls, noEffects, h]
  · cases o1 <;> cases o2 <;>
      simp [evictPodIfNotEvicted, evictPod, evictTwiceApiCalls, noEffects, h]

/-- Witness for the amended C2 at concrete inputs: a failed first call
followed by a successful second on a fresh UID. -/
theorem claim_c2_twice_amended_witness :
    ((evictPodIfNotEvicted { podsEvicted := [] } samplePod "r" "m" false).2.apiSuccesses +
      (evictPodIfNotEvicted (evictPodIfNotEvicted { podsEvicted := [] } samplePod "r" "m" false).1
        samplePod "r" "m" true).2.apiSuccesses ≤ 1) ∧
    (samplePod.uid ∉ ({ podsEvicted := [] } : EvictState).podsEvicted ∧
      (evictPodIfNotEvicted (evictPodIfNotEvicted { podsEvicted := [] } samplePod "r" "m" false).1
        samplePod "r" "m" true).2.apiCalls = 1) :=
  ⟨(claim_c2_twice_amended { podsEvicted := [] } samplePod "r" "m" false true).1,
   by decide,
   (claim_c2_twice_amended { podsEvicted := [] } samplePod "r" "m" false true).2.2.2
      (by decide) rfl⟩

/-! ## Theorems: memory evictor -/

/-- The drain loop kills a prefix of the victim list: for some `k`, the
killed pods are the first `k` victims in order, the released total is the
credited memory of that prefix, every proper sub-prefix is still short of
the budget, and the loop stops either because the victims ran out or because
the budget was reached. -/
theorem drainLoop_characterization (need : Int) :
    ∀ (infos : List PodInfo) (acc : Int),
      ∃ k, k ≤ infos.length ∧
        (drainLoop need infos acc).1 = (infos.take k).map PodInfo.pod ∧
        (drainLoop need infos acc).2 = acc + creditSum (infos.take k) ∧
        (∀ j, j < k → acc + creditSum (infos.take j) < need) ∧
        (k = infos.length ∨ need ≤ acc + creditSum (infos.take k)) := by
  intro infos
  induction infos with
  | nil =>
    intro acc
    exact ⟨0, Nat.le_refl 0, rfl, by simp [drainLoop, creditSum],
      fun j hj => absurd hj (Nat.not_lt_zero j), Or.inl rfl⟩
  | cons p ps ih =>
    intro acc
    by_cases hge : acc ≥ need
    · refine ⟨0, Nat.zero_le _, ?_, ?_, fun j hj => absurd hj (Nat.not_lt_zero j), Or.inr ?_⟩
      · simp [drainLoop, hge]
      · simp [drainLoop, hge, creditSum]
      · simpa [creditSum] using hge
    · have hlt : acc < need := lt_of_not_ge hge
      obtain ⟨k, hk, h1, h2, h3, h4⟩ :=
        ih (if p.memUsed != 0 then acc + p.memUsed else acc)
      have hcredit : (if p.memUsed != 0 then acc + p.memUsed else acc) =
          acc + (if p.memUsed != 0 then p.memUsed else 0) := by
        by_cases hm : p.memUsed = 0 <;> simp [hm]
      refine ⟨k + 1, by simpa using Nat.succ_le_succ hk, ?_, ?_, ?_, ?_⟩
      · simp only [drainLoop, if_neg hge, List.take_succ_cons, List.map_cons]
        rw [h1]
      · simp only [drainLoop, if_neg hge, List.take_succ_cons, creditSum]
        rw [h2, hcredit]
        ring
      · intro j hj
        cases j with
        | zero => simpa [creditSum] using hlt
        | succ j =>
          have hj' : j < k := Nat.lt_of_succ_lt_succ hj
          have := h3 j hj'
          rw [hcredit] at this
          simp only [List.take_succ_cons, creditSum]
          omega
      · rcases h4 with h4 | h4
        · exact Or.inl (by simp [h4])
        · refine Or.inr ?_
          rw [hcredit] at h4
          simp only [List.take_succ_cons, creditSum]
          omega

/-- Every `memoryEvict` tick either returns `skipResult` (no kill, no
eviction, state unchanged) or all its guards passed, the eviction wave ran,
and `lastEvictTime` was set to the tick-end time. -/
theorem memoryEvict_skip_or_guards (cfg : MemoryEvictConfig) (st : MemoryEvictorState)
    (env : TickEnv) :
    memoryEvict cfg st env = skipResult st ∨
      (guardsPass cfg st env ∧
        (memoryEvict cfg st env).lastEvictTime = env.now2 ∧
        (memoryEvict cfg st env).acted = true) := by
  unfold memoryEvict guardsPass
  split
  · exact Or.inl rfl
  next hcool =>
    split
    · exact Or.inl rfl
    next hfd2 =>
      split
      · exact Or.inl rfl
      next hfd1 =>
        split
        · exact Or.inl rfl
        next spec hslo =>
          split
          · exact Or.inl rfl
          next strategy hstr =>
            split
            · exact Or.inl rfl
            next thresholdPercent hth =>
              split
              · exact Or.inl rfl
              next hth0 =>
                split
                · exact Or.inl rfl
                next hlow =>
                  split
                  · exact Or.inl rfl
                  next node hnode =>
                    split
                    · exact Or.inl rfl
                    next hcap =>
                      split
                      · exact Or.inl rfl
                      next hq =>
                        split
                        · exact Or.inl rfl
                        next used hused =>
                          split
                          · exact Or.inl rfl
                          next husage =>
                            have henable : strategy.enable = some true := by
                              have hne : spec ≠ { resourceUsedThresholdWithBE := none } := by
                                intro hcontra
                                rw [hcontra] at hstr
                                simp at hstr
                              cases he : strategy.enable with
                              | none =>
                                exact absurd (by simp [isFeatureDisabled, hslo, hne, hstr, he]) hfd2
                              | some e =>
                                cases e with
                                | false =>
                                  exact absurd (by simp [isFeatureDisabled, hslo, hne, hstr, he]) hfd1
                                | true => rfl
                            exact Or.inr ⟨⟨hcool, spec, strategy, thresholdPercent, node, used,
                              hslo, hstr, henable, hth, by omega, by omega, hnode, by omega,
                              by simpa using hq, hused, by omega⟩, rfl, rfl⟩

/-- When every guard of a `memoryEvict` tick passes, the tick runs the
eviction wave with budget
`memoryNeedRelease capacity usagePct lowerPercent`. -/
theorem memoryEvict_wave (cfg : MemoryEvictConfig) (st : MemoryEvictorState) (env : TickEnv)
    (spec : NodeSLOSpec) (strategy : ResourceThresholdStrategy)
    (thresholdPercent : Int) (node : Node) (used : Int)
    (hcool : ¬ env.now1 < st.lastEvictTime + cfg.memoryEvictCoolTimeSeconds)
    (hslo : env.nodeSLO = some spec)
    (hstr : spec.resourceUsedThresholdWithBE = some strategy)
    (hen : strategy.enable = some true)
    (hth : strategy.memoryEvictThresholdPercent = some thresholdPercent)
    (hth0 : 0 ≤ thresholdPercent)
    (hlow : effectiveLowerPercent strategy thresholdPercent < thresholdPercent)
    (hnode : env.node = some node)
    (hcap : 0 < node.capacityMemory)
    (hq : env.buildQueryOk = true)
    (hused : env.nodeMemoryUsed = some used)
    (husage : thresholdPercent ≤ goDiv (used * 100) node.capacityMemory) :
    memoryEvict cfg st env =
      waveResult env
        (memoryNeedRelease node.capacityMemory (goDiv (used * 100) node.capacityMemory)
          (effectiveLowerPercent strategy thresholdPercent)) := by
  have hne : spec ≠ { resourceUsedThresholdWithBE := none } := by
    intro hcontra
    rw [hcontra] at hstr
    simp at hstr
  have hfd : isFeatureDisabled env.nodeSLO .BEMemoryEvict = (false, false) := by
    simp [isFeatureDisabled, hslo, hne, hstr, hen]
  unfold memoryEvict
  rw [if_neg hcool, hfd]
  simp only [hslo, hstr, hth, hnode, hused, hq]
  rw [if_neg (by omega : ¬ thresholdPercent < 0),
    if_neg (by omega : ¬ effectiveLowerPercent strategy thresholdPercent ≥ thresholdPercent),
    if_neg (by omega : ¬ node.capacityMemory ≤ 0)]
  simp only [Bool.not_true, if_neg (by simp : ¬ (false = true))]
  rw [if_neg (by omega : ¬ goDiv (used * 100) node.capacityMemory < thresholdPercent)]

/-- Claim C3: on a memory-evict tick where all guards pass, the node usage
percent is the floor of `used * 100 / capacity`; below the threshold the
tick returns with no kill or eviction; at or above it the budget is
`capacity * (usagePct - L) / 100`, the drain loop kills a prefix of the
sorted victims in order, credits only non-zero `memUsed` samples, stops as
soon as the released total reaches the budget, and the killed list is what
is passed to the batch evictor. -/
theorem claim_c3_memory_evict_tick (cfg : MemoryEvictConfig) (st : MemoryEvictorState)
    (env : TickEnv) (spec : NodeSLOSpec) (strategy : ResourceThresholdStrategy)
    (thresholdPercent : Int) (node : Node) (used : Int)
    (hcool : ¬ env.now1 < st.lastEvictTime + cfg.memoryEvictCoolTimeSeconds)
    (hslo : env.nodeSLO = some spec)
    (hstr : spec.resourceUsedThresholdWithBE = some strategy)
    (hen : strategy.enable = some true)
    (hth : strategy.memoryEvictThresholdPercent = some thresholdPercent)
    (hth0 : 0 ≤ thresholdPercent)
    (hlow : effectiveLowerPercent strategy thresholdPercent < thresholdPercent)
    (hnode : env.node = some node)
    (hcap : 0 < node.capacityMemory)
    (hq : env.buildQueryOk = true)
    (hused : env.nodeMemoryUsed = some used)
    (hused0 : 0 ≤ used) :
    goDiv (used * 100) node.capacityMemory = (used * 100) / node.capacityMemory ∧
    (goDiv (used * 100) node.capacityMemory < thresholdPercent →
      memoryEvict cfg st env = skipResult st) ∧
    (thresholdPercent ≤ goDiv (used * 100) node.capacityMemory →
      (memoryEvict cfg st env).needRelease =
        memoryNeedRelease node.capacityMemory (goDiv (used * 100) node.capacityMemory)
          (effectiveLowerPercent strategy thresholdPercent) ∧
      (memoryEvict cfg st env).evictedPods = (memoryEvict cfg st env).killed ∧
      ∃ k, k ≤ (getSortedBEPodInfos env.allPods env.podMetricMap).length ∧
        (memoryEvict cfg st env).killed =
          ((getSortedBEPodInfos env.allPods env.podMetricMap).take k).map PodInfo.pod ∧
        (memoryEvict cfg st env).released =
          creditSum ((getSortedBEPodInfos env.allPods env.podMetricMap).take k) ∧
        (∀ j, j < k → creditSum ((getSortedBEPodInfos env.allPods env.podMetricMap).take j) <
          (memoryEvict cfg st env).needRelease) ∧
        (k = (getSortedBEPodInfos env.allPods env.podMetricMap).length ∨
          (memoryEvict cfg st env).needRelease ≤
            creditSum ((getSortedBEPodInfos env.allPods env.podMetricMap).take k))) := by
  refine ⟨Int.tdiv_eq_ediv (by positivity) (le_of_lt hcap), ?_, ?_⟩
  · intro hbelow
    rcases memoryEvict_skip_or_guards cfg st env with h | ⟨⟨_, spec', strategy', t', node', used',
      hslo', hstr', _, hth', _, _, hnode', _, _, hused', husage'⟩, _, _⟩
    · exact h
    · exfalso
      rw [hslo] at hslo'
      injection hslo' with hspec
      subst hspec
      rw [hstr] at hstr'
      injection hstr' with hstrat
      subst hstrat
      rw [hth] at hth'
      injection hth' with ht
      subst ht
      rw [hnode] at hnode'
      injection hnode' with hnd
      subst hnd
      rw [hused] at hused'
      injection hused' with hu
      subst hu
      omega
  · intro husage
    have hwave := memoryEvict_wave cfg st env spec strategy thresholdPercent node used
      hcool hslo hstr hen hth hth0 hlow hnode hcap hq hused husage
    rw [hwave]
    obtain ⟨k, hk, h1, h2, h3, h4⟩ := drainLoop_characterization
      (memoryNeedRelease node.capacityMemory (goDiv (used * 100) node.capacityMemory)
        (effectiveLowerPercent strategy thresholdPercent))
      (getSortedBEPodInfos env.allPods env.podMetricMap) 0
    refine ⟨rfl, rfl, k, hk, h1, by simpa [waveResult] using h2, ?_, ?_⟩
    · intro j hj
      have := h3 j hj
      simpa [waveResult] using this
    · rcases h4 with h4 | h4
      · exact Or.inl h4
      · exact Or.inr (by simpa [waveResult] using h4)

/-- Witness for C3 at the concrete pressure scenario (capacity 100, used 80,
threshold 70, lower 60): the budget and the killed/evicted equality follow
from the claim theorem with every hypothesis discharged by evaluation. -/
theorem claim_c3_memory_evict_tick_witness :
    (memoryEvict sampleCfg sampleSt sampleEnv).needRelease =
      memoryNeedRelease sampleNode.capacityMemory (goDiv (80 * 100) sampleNode.capacityMemory)
        (effectiveLowerPercent sampleStrategy 70) ∧
    (memoryEvict sampleCfg sampleSt sampleEnv).evictedPods =
      (memoryEvict sampleCfg sampleSt sampleEnv).killed := by
  have h := claim_c3_memory_evict_tick sampleCfg sampleSt sampleEnv
    { resourceUsedThresholdWithBE := some sampleStrategy } sampleStrategy 70 sampleNode 80
    (by decide) rfl rfl rfl rfl (by decide) (by decide) rfl (by decide) rfl rfl (by decide)
  exact ⟨(h.2.2 (by decide)).1, (h.2.2 (by decide)).2.1⟩

/-- Claim C5: each listed failure condition forces the memory-evict tick to
return `skipResult` — nothing killed, nothing evicted, state unchanged. -/
theorem claim_c5_memory_evict_skip_cases (cfg : MemoryEvictConfig) (st : MemoryEvictorState)
    (env : TickEnv)
    (h :
      env.nodeSLO = none ∨
      env.nodeSLO = some { resourceUsedThresholdWithBE := none } ∨
      (∃ spec strategy, env.nodeSLO = some spec ∧
        spec.resourceUsedThresholdWithBE = some strategy ∧
        (strategy.enable = none ∨ strategy.enable = some false ∨
          strategy.memoryEvictThresholdPercent = none)) ∨
      (∃ spec strategy t, env.nodeSLO = some spec ∧
        spec.resourceUsedThresholdWithBE = some strategy ∧
        strategy.memoryEvictThresholdPercent = some t ∧
        (t < 0 ∨ t ≤ effectiveLowerPercent strategy t)) ∨
      env.node = none ∨
      (∃ node, env.node = some node ∧ node.capacityMemory ≤ 0) ∨
      env.buildQueryOk = false ∨
      env.nodeMemoryUsed = none ∨
      (∃ spec strategy t node used, env.nodeSLO = some spec ∧
        spec.resourceUsedThresholdWithBE = some strategy ∧
        strategy.memoryEvictThresholdPercent = some t ∧
        env.node = some node ∧ env.nodeMemoryUsed = some used ∧
        goDiv (used * 100) node.capacityMemory < t)) :
    memoryEvict cfg st env = skipResult st := by
  rcases memoryEvict_skip_or_guards cfg st env with hs | ⟨⟨hcool, spec', strategy', t', node', used',
    hslo', hstr', hen', hth', hth0', hlow', hnode', hcap', hq', hused', husage'⟩, _, _⟩
  · exact hs
  exfalso
  rcases h with h | h | ⟨spec, strategy, hslo, hstr, h⟩ | ⟨spec, strategy, t, hslo, hstr, hth, h⟩ |
    h | ⟨node, hnode, hcap⟩ | h | h | ⟨spec, strategy, t, node, used, hslo, hstr, hth, hnode, hused, husage⟩
  · rw [h] at hslo'
    exact Option.noConfusion hslo'
  · rw [h] at hslo'
    injection hslo' with e
    rw [← e] at hstr'
    exact Option.noConfusion hstr'
  · rw [hslo] at hslo'
    injection hslo' with e
    subst e
    rw [hstr] at hstr'
    injection hstr' with e2
    subst e2
    rcases h with h | h | h
    · rw [h] at hen'
      exact Option.noConfusion hen'
    · rw [h] at hen'
      injection hen' with e3
      exact Bool.noConfusion e3
    · rw [h] at hth'
      exact Option.noConfusion hth'
  · rw [hslo] at hslo'
    injection hslo' with e
    subst e
    rw [hstr] at hstr'
    injection hstr' with e2
    subst e2
    rw [hth] at hth'
    injection hth' with e3
    subst e3
    omega
  · rw [h] at hnode'
    exact Option.noConfusion hnode'
  · rw [hnode] at hnode'
    injection hnode' with e
    subst e
    omega
  · rw [h] at hq'
    exact Bool.noConfusion hq'
  · rw [h] at hused'
    exact Option.noConfusion hused'
  · rw [hslo] at hslo'
    injection hslo' with e
    subst e
    rw [hstr] at hstr'
    injection hstr' with e2
    subst e2
    rw [hth] at hth'
    injection hth' with e3
    subst e3
    rw [hnode] at hnode'
    injection hnode' with e4
    subst e4
    rw [hused] at hused'
    injection hused' with e5
    subst e5
    omega

/-- Witness for C5: with a nil NodeSLO the pressure-scenario tick skips. -/
theorem claim_c5_memory_evict_skip_cases_witness :
    memoryEvict sampleCfg sampleSt sampleEnvNilSLO = skipResult sampleSt :=
  claim_c5_memory_evict_skip_cases sampleCfg sampleSt sampleEnvNilSLO (Or.inl rfl)

/-- Claim C6: during cooldown the tick returns immediately with no action;
`lastEvictTime` is either untouched or set to the tick-end time after an
eviction wave, so under real-time monotonicity (`lastEvictTime ≤ now1 ≤ now2`)
it never decreases across ticks. -/
theorem claim_c6_cooldown_and_monotonicity (cfg : MemoryEvictConfig) (st : MemoryEvictorState)
    (env : TickEnv) :
    (env.now1 < st.lastEvictTime + cfg.memoryEvictCoolTimeSeconds →
      memoryEvict cfg st env = skipResult st) ∧
    ((memoryEvict cfg st env).lastEvictTime = st.lastEvictTime ∨
      ((memoryEvict cfg st env).lastEvictTime = env.now2 ∧
        (memoryEvict cfg st env).acted = true)) ∧
    (st.lastEvictTime ≤ env.now1 → env.now1 ≤ env.now2 →
      st.lastEvictTime ≤ (memoryEvict cfg st env).lastEvictTime) := by
  refine ⟨fun h => ?_, ?_, fun h1 h2 => ?_⟩
  · unfold memoryEvict
    rw [if_pos h]
  · rcases memoryEvict_skip_or_guards cfg st env with hs | ⟨_, ha, hb⟩
    · exact Or.inl (by rw [hs]; rfl)
    · exact Or.inr ⟨ha, hb⟩
  · rcases memoryEvict_skip_or_guards cfg st env with hs | ⟨_, ha, _⟩
    · rw [hs]
      exact le_refl _
    · rw [ha]
      omega

/-- Witness for C6: a tick inside the cooldown window skips, and the
pressure-scenario tick keeps `lastEvictTime` non-decreasing. -/
theorem claim_c6_cooldown_and_monotonicity_witness :
    memoryEvict { memoryEvictCoolTimeSeconds := 60 } sampleSt { sampleEnv with now1 := 5 } =
      skipResult sampleSt ∧
    sampleSt.lastEvictTime ≤ (memoryEvict sampleCfg sampleSt sampleEnv).lastEvictTime :=
  ⟨(claim_c6_cooldown_and_monotonicity { memoryEvictCoolTimeSeconds := 60 } sampleSt
      { sampleEnv with now1 := 5 }).1 (by decide),
   (claim_c6_cooldown_and_monotonicity sampleCfg sampleSt sampleEnv).2.2 (by decide) (by decide)⟩

/-- Claim C9: with `MemoryEvictLowerPercent` unset the lower bound is the
threshold minus 2 (so threshold 70 gives 68), and a tick whose lower bound
is not strictly below the threshold skips. -/
theorem claim_c9_lower_percent_default (strategy : ResourceThresholdStrategy) (t : Int)
    (cfg : MemoryEvictConfig) (st : MemoryEvictorState) (env : TickEnv) (spec : NodeSLOSpec) :
    (strategy.memoryEvictLowerPercent = none → effectiveLowerPercent strategy t = t - 2) ∧
    (strategy.memoryEvictLowerPercent = none → effectiveLowerPercent strategy 70 = 68) ∧
    (env.nodeSLO = some spec → spec.resourceUsedThresholdWithBE = some strategy →
      strategy.memoryEvictThresholdPercent = some t →
      t ≤ effectiveLowerPercent strategy t →
      memoryEvict cfg st env = skipResult st) := by
  refine ⟨fun h => by simp [effectiveLowerPercent, h, memoryReleaseBufferPercent],
    fun h => by simp [effectiveLowerPercent, h, memoryReleaseBufferPercent],
    fun hslo hstr hth hle => ?_⟩
  rcases memoryEvict_skip_or_guards cfg st env with hs | ⟨⟨_, spec', strategy', t', _, _,
    hslo', hstr', _, hth', _, hlow', _, _, _, _, _⟩, _, _⟩
  · exact hs
  · exfalso
    rw [hslo] at hslo'
    injection hslo' with e
    subst e
    rw [hstr] at hstr'
    injection hstr' with e2
    subst e2
    rw [hth] at hth'
    injection hth' with e3
    subst e3
    omega

/-- Witness for C9: threshold 70 with the lower percent unset yields 68, and
a NodeSLO with threshold 50 but lower bound 60 makes the tick skip. -/
theorem claim_c9_lower_percent_default_witness :
    effectiveLowerPercent sampleStrategyNoLower 70 = 68 ∧
    memoryEvict sampleCfg sampleSt sampleEnvBad = skipResult sampleSt :=
  ⟨(claim_c9_lower_percent_default sampleStrategyNoLower 70 sampleCfg sampleSt sampleEnv
      { resourceUsedThresholdWithBE := some sampleStrategy }).2.1 rfl,
   (claim_c9_lower_percent_default sampleStrategyBad 50 sampleCfg sampleSt sampleEnvBad
      sampleSpecBad).2.2 rfl rfl rfl (by decide)⟩

/-! ## Theorems: victim ordering -/

/-- The tie-break keys of the comparison, as propositions: descending
`memUsed` when both samples are non-zero, descending name when both are
zero, and "no sample ranks after a sample" in the mixed case. -/
theorem memEvictTieBreak_iff (a b : PodInfo) :
    memEvictTieBreak a b = true ↔
      ((a.memUsed ≠ 0 ∧ b.memUsed ≠ 0 ∧ b.memUsed < a.memUsed) ∨
       (a.memUsed = 0 ∧ b.memUsed = 0 ∧ b.pod.name < a.pod.name) ∨
       (a.memUsed ≠ 0 ∧ b.memUsed = 0)) := by
  unfold memEvictTieBreak
  by_cases h1 : a.memUsed = 0 <;> by_cases h2 : b.memUsed = 0 <;>
    simp [h1, h2, GT.gt]

/-- Claim C4: the comparison closure of `getSortedBEPodInfos` holds exactly
when: both priorities are present and differ with the first strictly lower;
or the priority key is a tie (one missing or equal values) and either both
samples are non-zero with the first strictly larger, or both are zero with
the first name strictly larger, or only the second sample is zero. -/
theorem claim_c4_victim_order (a b : PodInfo) :
    memEvictLess a b = true ↔
      ((∃ pa pb, a.pod.priority = some pa ∧ b.pod.priority = some pb ∧ pa ≠ pb ∧ pa < pb) ∨
       ((a.pod.priority = none ∨ b.pod.priority = none ∨ a.pod.priority = b.pod.priority) ∧
        ((a.memUsed ≠ 0 ∧ b.memUsed ≠ 0 ∧ b.memUsed < a.memUsed) ∨
         (a.memUsed = 0 ∧ b.memUsed = 0 ∧ b.pod.name < a.pod.name) ∨
         (a.memUsed ≠ 0 ∧ b.memUsed = 0)))) := by
  unfold memEvictLess
  cases ha : a.pod.priority with
  | none => simp [ha, memEvictTieBreak_iff a b]
  | some pa =>
    cases hb : b.pod.priority with
    | none => simp [ha, hb, memEvictTieBreak_iff a b]
    | some pb =>
      dsimp only
      by_cases hne : pa = pb
      · subst hne
        simp [memEvictTieBreak_iff a b]
      · have hbne : (pa != pb) = true := by simpa using hne
        rw [if_pos hbne]
        constructor
        · intro h
          exact Or.inl ⟨pa, pb, rfl, rfl, hne, by simpa using h⟩
        · intro h
          rcases h with ⟨pa2, pb2, e1, e2, _, hlt⟩ | ⟨htie, _⟩
          · injection e1 with e1
            injection e2 with e2
            subst e1
            subst e2
            simpa using hlt
          · rcases htie with h | h | h
            · exact Option.noConfusion h
            · exact Option.noConfusion h
            · injection h with h
              exact absurd h hne

/-- Witness for C4: applied to the concrete cycle inputs A and B, where the
priority key decides. -/
theorem claim_c4_victim_order_witness :
    memEvictLess cycleInfoA cycleInfoB = true ↔
      ((∃ pa pb, cycleInfoA.pod.priority = some pa ∧ cycleInfoB.pod.priority = some pb ∧
          pa ≠ pb ∧ pa < pb) ∨
       ((cycleInfoA.pod.priority = none ∨ cycleInfoB.pod.priority = none ∨
          cycleInfoA.pod.priority = cycleInfoB.pod.priority) ∧
        ((cycleInfoA.memUsed ≠ 0 ∧ cycleInfoB.memUsed ≠ 0 ∧
            cycleInfoB.memUsed < cycleInfoA.memUsed) ∨
         (cycleInfoA.memUsed = 0 ∧ cycleInfoB.memUsed = 0 ∧
            cycleInfoB.pod.name < cycleInfoA.pod.name) ∨
         (cycleInfoA.memUsed ≠ 0 ∧ cycleInfoB.memUsed = 0)))) :=
  claim_c4_victim_order cycleInfoA cycleInfoB

/-- Claim C10: the comparison closure of `getSortedBEPodInfos` is cyclic on
A(priority 1, sample 5), B(priority 2, sample 10), C(no priority, sample 7)
— A before B, B before C, C before A — and hence not transitive, so it is
not a strict weak order and the sorted result on such inputs is
implementation-defined. -/
theorem claim_c10_comparator_not_transitive :
    memEvictLess cycleInfoA cycleInfoB = true ∧
    memEvictLess cycleInfoB cycleInfoC = true ∧
    memEvictLess cycleInfoC cycleInfoA = true ∧
    memEvictLess cycleInfoA cycleInfoC = false ∧
    ¬ Transitive (fun x y : PodInfo => memEvictLess x y = true) := by
  refine ⟨by decide, by decide, by decide, by decide, fun htrans => ?_⟩
  have h := htrans (show memEvictLess cycleInfoA cycleInfoB = true by decide)
    (show memEvictLess cycleInfoB cycleInfoC = true by decide)
  have h2 : memEvictLess cycleInfoA cycleInfoC = false := by decide
  rw [h] at h2
  exact Bool.noConfusion h2

/-! ## Theorems: container killer and host startup -/

/-- A status found by name comes from the status list. -/
theorem findContainerIdAndStatusByName_mem (name : String) :
    ∀ (statuses : List ContainerStatus) (cid : String) (st : ContainerStatus),
      findContainerIdAndStatusByName statuses name = some (cid, st) → st ∈ statuses := by
  intro statuses
  induction statuses with
  | nil => intro cid st h; exact Option.noConfusion h
  | cons hd tl ih =>
    intro cid st h
    unfold findContainerIdAndStatusByName at h
    by_cases hn : (hd.name == name) = true
    · rw [if_pos hn] at h
      injection h with h
      injection h with _ h2
      rw [← h2]
      exact List.mem_cons_self hd tl
    · rw [if_neg hn] at h
      exact List.mem_cons_of_mem hd (ih cid st h)

/-- The list of stop calls does not depend on the stop-error outcomes: a
`StopContainer` error is logged and ignored. -/
theorem killContainersLoop_stopErr_irrelevant (known : List String) (f g : String → Bool)
    (statuses : List ContainerStatus) :
    ∀ specs : List ContainerSpec,
      killContainersLoop known f statuses specs = killContainersLoop known g statuses specs := by
  intro specs
  induction specs with
  | nil => rfl
  | cons c cs ih =>
    unfold killContainersLoop
    cases h : findContainerIdAndStatusByName statuses c.name with
    | none => rfl
    | some found =>
      dsimp only
      by_cases hrun : (!found.2.stateRunning) = true
      · rw [if_pos hrun, if_pos hrun]
      · rw [if_neg hrun, if_neg hrun]
        by_cases hcid : (found.1 != "") = true
        · rw [if_pos hcid, if_pos hcid]
          by_cases hk : known.contains (parseContainerId found.2.containerID).1 = true
          · rw [if_pos hk, if_pos hk, ih]
          · rw [if_neg hk, if_neg hk, ih]
        · rw [if_neg hcid, if_neg hcid, ih]

/-- Claim C7: a missing container status aborts the whole pod (no stop call
at all, later containers untouched); a found but non-running status aborts
likewise; an unknown runtime only skips that container and the loop
continues; stop errors never change the calls made; and a pod none of whose
container statuses is running triggers no runtime stop call. -/
theorem claim_c7_kill_containers_asymmetry (known : List String) (stopErr : String → Bool)
    (statuses : List ContainerStatus) (c : ContainerSpec) (cs : List ContainerSpec)
    (pod : Pod) (f g : String → Bool) :
    (findContainerIdAndStatusByName statuses c.name = none →
      killContainersLoop known stopErr statuses (c :: cs) = []) ∧
    (∀ cid st, findContainerIdAndStatusByName statuses c.name = some (cid, st) →
      st.stateRunning = false →
      killContainersLoop known stopErr statuses (c :: cs) = []) ∧
    (∀ cid st, findContainerIdAndStatusByName statuses c.name = some (cid, st) →
      st.stateRunning = true → cid ≠ "" →
      known.contains (parseContainerId st.containerID).1 = false →
      killContainersLoop known stopErr statuses (c :: cs) =
        killContainersLoop known stopErr statuses cs) ∧
    (killContainers known f pod = killContainers known g pod) ∧
    ((∀ st ∈ pod.statusContainerStatuses, st.stateRunning = false) →
      killContainers known f pod = []) := by
  refine ⟨fun h => by simp [killContainersLoop, h], fun cid st h hrun => ?_, 
    fun cid st h hrun hcid hk => ?_, 
    killContainersLoop_stopErr_irrelevant known f g pod.statusContainerStatuses
      pod.specContainers, fun hnone => ?_⟩
  · simp [killContainersLoop, h, hrun]
  · have hk2 : (parseContainerId st.containerID).1 ∉ known := by simpa using hk
    simp [killContainersLoop, h, hrun, hcid, hk2]
  · unfold killContainers
    induction pod.specContainers with
    | nil => rfl
    | cons c2 cs2 ih =>
      unfold killContainersLoop
      cases hfind : findContainerIdAndStatusByName pod.statusContainerStatuses c2.name with
      | none => rfl
      | some found =>
        have hmem := findContainerIdAndStatusByName_mem c2.name pod.statusContainerStatuses
          found.1 found.2 (by rw [hfind])
        have hrun2 := hnone found.2 hmem
        simp [hrun2]

/-- Witness for C7 on a concrete pod: missing status for the first
container aborts, and a pod whose containers are all stopped produces no
stop call. -/
theorem claim_c7_kill_containers_asymmetry_witness :
    killContainersLoop ["docker"] (fun _ => false) [strayStatus]
      [{ name := "main" }, { name := "other" }] = [] ∧
    killContainers ["docker"] (fun _ => false) stoppedPod = [] :=
  ⟨(claim_c7_kill_containers_asymmetry ["docker"] (fun _ => false) [strayStatus]
      { name := "main" } [{ name := "other" }] samplePod (fun _ => false) (fun _ => false)).1
      (by decide),
   (claim_c7_kill_containers_asymmetry ["docker"] (fun _ => false) [] { name := "c1" } []
      stoppedPod (fun _ => false) (fun _ => false)).2.2.2.2 (by decide)⟩

/-- Claim C8: a collect interval below one second makes `Run` return nil
immediately with nothing started, and a states informer that never syncs
makes `Run` return the sync-timeout error with no reconciler spawned. -/
theorem claim_c8_run_startup_boundaries (interval : Int) (synced : Bool) :
    (interval < 1 →
      Run interval synced =
        { err := none, sweeperStarted := false, greyCtrlPluginsStarted := false
          reconcilersStarted := [] }) ∧
    (1 ≤ interval →
      Run interval false =
        { err := some "time out waiting for states informer caches to sync"
          sweeperStarted := true, greyCtrlPluginsStarted := true
          reconcilersStarted := [] }) := by
  constructor
  · intro h
    unfold Run
    rw [if_pos h]
  · intro h
    unfold Run
    rw [if_neg (by omega : ¬ interval < 1)]
    rfl

/-- Witness for C8: interval 0 returns nil with nothing started; interval 1
with a never-syncing informer returns the sync-timeout error. -/
theorem claim_c8_run_startup_boundaries_witness :
    Run 0 true =
      { err := none, sweeperStarted := false, greyCtrlPluginsStarted := false
        reconcilersStarted := [] } ∧
    Run 1 false =
      { err := some "time out waiting for states informer caches to sync"
        sweeperStarted := true, greyCtrlPluginsStarted := true
        reconcilersStarted := [] } :=
  ⟨(claim_c8_run_startup_boundaries 0 true).1 (by decide),
   (claim_c8_run_startup_boundaries 1 false).2 (by decide)⟩
